import Mathlib

/-!
Verification of the negative-case conformance checks in
`bench/session/wrongapp.go` (package `session`).

Each Go case function is embedded as a pure Lean function. External
effects are passed in explicitly:
  * the outcome of `newPostRequest` (an optional construction error),
  * the outcome of `s.Do` (a transport error or an HTTP response),
  * the outcome of the cryptographic random source `crand.Read`
    (for the cases that forge a CSRF token).
The function returns a `CaseOutcome` record collecting the final session
state, the request payloads that were built, how often the response body
was closed, whether it was ever read, and the result: `Except.error`
models a propagating panic, `Except.ok none` a successful verification,
`Except.ok (some f)` a per-case verification failure `f`.
-/

namespace WrongApp

/-- Modelled from the spec: the externally-owned `Session`
(`bench/session`, not part of the sources under review) holds the base
target URL and the currently valid anti-forgery token of the actor. -/
structure Session where
  targetURL : String
  csrfToken : String
deriving Repr, DecidableEq

/-- Lower price bound constant from the `const` block of wrongapp.go. -/
def ItemMinPrice : Int := 100

/-- Upper price bound constant from the `const` block of wrongapp.go. -/
def ItemMaxPrice : Int := 1000000

/-- Fixed price-violation message constant from the `const` block. -/
def ItemPriceErrMsg : String := "商品価格は100円以上、1,000,000円以下にしてください"

/-- Error envelope the response body is decoded into (`resErr` in the
source, one string field tagged `json:"error"`). -/
structure resErr where
  Error : String
deriving Repr, DecidableEq

/-- Modelled from the spec: a response body as presented to the JSON
decoder. `malformed` stands for any body that does not decode as the
error envelope; `obj fields` for a JSON object with string fields. -/
inductive Body where
  | malformed
  | obj (fields : List (String × String))
deriving Repr, DecidableEq

/-- An HTTP response as the assertion code observes it: the status code
and the body handed to the decoder. -/
structure Response where
  status : Nat
  body : Body
deriving Repr, DecidableEq

/-- Modelled from the spec: `json.NewDecoder(res.Body).Decode(&re)` into
`resErr`. Decoding a JSON object without an `error` field leaves the Go
zero value, the empty string; a malformed body yields a decode error. -/
def decodeResErr : Body → Except String resErr
  | Body.malformed => Except.error ("JSONデコードに失敗")
  | Body.obj fields => Except.ok ⟨((fields.lookup "error").getD "")⟩

/-- Modelled from the spec: `fails.NewError` wraps an optional underlying
cause together with a human-readable diagnostic string. -/
structure Fail where
  cause : Option String
  msg : String
deriving Repr, DecidableEq

/-- Constructor mirroring `fails.NewError(err, msg)`; a `none` cause is a
nil underlying error. -/
def NewError (cause : Option String) (msg : String) : Fail :=
  ⟨cause, msg⟩

/-- Modelled from the spec: `checkStatusCode(res, expectedStatus)`
compares the actual status with the expected one; on mismatch it returns
a diagnostic string carrying both values together with a non-nil error,
and does not touch the body. -/
def checkStatusCode (res : Response) (expectedStatus : Nat) : String × Option String :=
  if res.status = expectedStatus then ("", none)
  else
    ("got response status code " ++ toString res.status ++ "; expected " ++
        toString expectedStatus,
      some ("status code mismatch"))

/-- The `net/http` constant `http.StatusBadRequest`. -/
def StatusBadRequest : Nat := 400

/-- The `net/http` constant `http.StatusUnauthorized`. -/
def StatusUnauthorized : Nat := 401

/-- The `net/http` constant `http.StatusForbidden`. -/
def StatusForbidden : Nat := 403

/-- The `net/http` constant `http.StatusUnprocessableEntity`. -/
def StatusUnprocessableEntity : Nat := 422

/-- Modelled from the spec: the `reqLogin` wire payload
{accountName, password}. -/
structure reqLogin where
  accountName : String
  password : String
deriving Repr, DecidableEq

/-- Modelled from the spec: the `reqSell` wire payload
{csrfToken, name, price, description, categoryID}. -/
structure reqSell where
  csrfToken : String
  name : String
  price : Int
  description : String
  categoryID : Int
deriving Repr, DecidableEq

/-- Modelled from the spec: the `reqBuy` wire payload
{csrfToken, itemID, token}. -/
structure reqBuy where
  csrfToken : String
  itemID : Int
  token : String
deriving Repr, DecidableEq

/-- Modelled from the spec: the `reqShip` wire payload
{csrfToken, itemID}. -/
structure reqShip where
  csrfToken : String
  itemID : Int
deriving Repr, DecidableEq

/-- One marshalled request payload, of any of the four operation kinds. -/
inductive Payload where
  | login (r : reqLogin)
  | sell (r : reqSell)
  | buy (r : reqBuy)
  | ship (r : reqShip)
deriving Repr, DecidableEq

/-- One lowercase hexadecimal digit, as produced by Go `%x`. -/
def hexDigit (n : Nat) : Char :=
  if n < 10 then Char.ofNat (48 + n) else Char.ofNat (87 + n)

/-- Two lowercase hex digits of one byte, as produced by Go `%x`. -/
def hexByte (b : Nat) : List Char :=
  [hexDigit (b / 16 % 16), hexDigit (b % 16)]

/-- The hex encoding `fmt.Sprintf` with verb `%x` applies to a byte
slice: each byte becomes two lowercase hex digits. -/
def hexStr (k : List Nat) : String :=
  String.mk ((k.map hexByte).flatten)

/-- Outcome of the cryptographic random source `crand.Read`: an error or
the drawn bytes (on success `crand.Read` fills the whole buffer). -/
def RandSrc : Type := Except String (List Nat)

/-- The `secureRandomStr` helper: a random-source failure panics, which
propagates as `Except.error`; on success the drawn bytes are
hex-encoded. The byte count `b` is the buffer length passed in Go. -/
def secureRandomStr (b : Nat) (src : RandSrc) : Except String String :=
  match src with
  | Except.error e => Except.error e
  | Except.ok k => Except.ok (hexStr k)

instance {ε α : Type} [DecidableEq ε] [DecidableEq α] : DecidableEq (Except ε α) := fun x y =>
  match x, y with
  | Except.error a, Except.error b =>
    if h : a = b then isTrue (by rw [h]) else isFalse (fun hc => by cases hc; exact h rfl)
  | Except.error _, Except.ok _ => isFalse (fun hc => by cases hc)
  | Except.ok _, Except.error _ => isFalse (fun hc => by cases hc)
  | Except.ok a, Except.ok b =>
    if h : a = b then isTrue (by rw [h]) else isFalse (fun hc => by cases hc; exact h rfl)

/-- Everything observable about one execution of a case function. -/
structure CaseOutcome where
  finalSession : Session
  payloads : List Payload
  bodyCloses : Nat
  bodyRead : Bool
  result : Except String (Option Fail)
deriving Repr, DecidableEq

/-- True when a case result is a normal return (success or per-case
failure) rather than a propagating panic. -/
def resultOk : Except String (Option Fail) → Bool
  | Except.ok _ => true
  | Except.error _ => false

/-- The csrfToken field of the single marshalled payload, when the case
built exactly one payload of a token-carrying kind. -/
def sentCSRFToken (o : CaseOutcome) : Option String :=
  match o.payloads with
  | [Payload.sell r] => some r.csrfToken
  | [Payload.buy r] => some r.csrfToken
  | [Payload.ship r] => some r.csrfToken
  | _ => none

/-- `(*Session).LoginWithWrongPassword`: POST /login with the given
(wrong) credentials, expecting 401 and a decodable error envelope. -/
def LoginWithWrongPassword (s : Session) (accountName password : String)
    (newReqErr : Option String) (doResult : Except String Response) : CaseOutcome :=
  let p := Payload.login ⟨accountName, password⟩
  match newReqErr with
  | some e =>
    ⟨s, [p], 0, false, Except.ok (some (NewError (some e) ("POST /login: リクエストに失敗しました")))⟩
  | none =>
    match doResult with
    | Except.error e =>
      ⟨s, [p], 0, false, Except.ok (some (NewError (some e) ("POST /login: リクエストに失敗しました")))⟩
    | Except.ok res =>
      match checkStatusCode res StatusUnauthorized with
      | (msg, some e) =>
        ⟨s, [p], 1, false, Except.ok (some (NewError (some e) ("POST /login: " ++ msg)))⟩
      | (_, none) =>
        match decodeResErr res.body with
        | Except.error e =>
          ⟨s, [p], 1, true, Except.ok (some (NewError (some e) ("POST /login: JSONデコードに失敗しました")))⟩
        | Except.ok _ =>
          ⟨s, [p], 1, true, Except.ok none⟩

/-- `(*Session).SellWithWrongCSRFToken`: POST /sell with a freshly
forged random token, expecting 422 and a decodable error envelope. A
random-source failure panics before any payload is marshalled. -/
def SellWithWrongCSRFToken (s : Session) (name : String) (price : Int)
    (description : String) (categoryID : Int) (src : RandSrc)
    (newReqErr : Option String) (doResult : Except String Response) : CaseOutcome :=
  match secureRandomStr 20 src with
  | Except.error e => ⟨s, [], 0, false, Except.error e⟩
  | Except.ok tok =>
    let p := Payload.sell ⟨tok, name, price, description, categoryID⟩
    match newReqErr with
    | some e =>
      ⟨s, [p], 0, false, Except.ok (some (NewError (some e) ("POST /sell: リクエストに失敗しました")))⟩
    | none =>
      match doResult with
      | Except.error e =>
        ⟨s, [p], 0, false, Except.ok (some (NewError (some e) ("POST /sell: リクエストに失敗しました")))⟩
      | Except.ok res =>
        match checkStatusCode res StatusUnprocessableEntity with
        | (msg, some e) =>
          ⟨s, [p], 1, false, Except.ok (some (NewError (some e) ("POST /sell: " ++ msg)))⟩
        | (_, none) =>
          match decodeResErr res.body with
          | Except.error e =>
            ⟨s, [p], 1, true, Except.ok (some (NewError (some e) ("POST /sell: JSONデコードに失敗しました")))⟩
          | Except.ok _ =>
            ⟨s, [p], 1, true, Except.ok none⟩

/-- `(*Session).SellWithWrongPrice`: POST /sell with the session's valid
token and an out-of-range price, expecting 400 and the exact
`ItemPriceErrMsg` in the error envelope. -/
def SellWithWrongPrice (s : Session) (name : String) (price : Int)
    (description : String) (categoryID : Int)
    (newReqErr : Option String) (doResult : Except String Response) : CaseOutcome :=
  let p := Payload.sell ⟨s.csrfToken, name, price, description, categoryID⟩
  match newReqErr with
  | some e =>
    ⟨s, [p], 0, false, Except.ok (some (NewError (some e) ("POST /sell: リクエストに失敗しました")))⟩
  | none =>
    match doResult with
    | Except.error e =>
      ⟨s, [p], 0, false, Except.ok (some (NewError (some e) ("POST /sell: リクエストに失敗しました")))⟩
    | Except.ok res =>
      match checkStatusCode res StatusBadRequest with
      | (msg, some e) =>
        ⟨s, [p], 1, false, Except.ok (some (NewError (some e) ("POST /sell: " ++ msg)))⟩
      | (_, none) =>
        match decodeResErr res.body with
        | Except.error e =>
          ⟨s, [p], 1, true, Except.ok (some (NewError (some e) ("POST /sell: JSONデコードに失敗しました")))⟩
        | Except.ok re =>
          if re.Error ≠ ItemPriceErrMsg then
            ⟨s, [p], 1, true,
              Except.ok (some (NewError none ("POST /sell: 商品価格は100円以上、1,000,000円以下しか出品できません")))⟩
          else
            ⟨s, [p], 1, true, Except.ok none⟩

/-- `(*Session).BuyWithWrongCSRFToken`: POST /buy with a freshly forged
random token, expecting 422 and a decodable error envelope. -/
def BuyWithWrongCSRFToken (s : Session) (itemID : Int) (token : String)
    (src : RandSrc) (newReqErr : Option String)
    (doResult : Except String Response) : CaseOutcome :=
  match secureRandomStr 20 src with
  | Except.error e => ⟨s, [], 0, false, Except.error e⟩
  | Except.ok tok =>
    let p := Payload.buy ⟨tok, itemID, token⟩
    match newReqErr with
    | some e =>
      ⟨s, [p], 0, false, Except.ok (some (NewError (some e) ("POST /buy: リクエストに失敗しました")))⟩
    | none =>
      match doResult with
      | Except.error e =>
        ⟨s, [p], 0, false, Except.ok (some (NewError (some e) ("POST /buy: リクエストに失敗しました")))⟩
      | Except.ok res =>
        match checkStatusCode res StatusUnprocessableEntity with
        | (msg, some e) =>
          ⟨s, [p], 1, false, Except.ok (some (NewError (some e) ("POST /buy: " ++ msg)))⟩
        | (_, none) =>
          match decodeResErr res.body with
          | Except.error e =>
            ⟨s, [p], 1, true, Except.ok (some (NewError (some e) ("POST /buy: JSONデコードに失敗しました")))⟩
          | Except.ok _ =>
            ⟨s, [p], 1, true, Except.ok none⟩

/-- `(*Session).BuyWithFailed`: POST /buy with the session's valid token;
the caller parameterizes the expected status and the exact expected
error message of the business-rule rejection. -/
def BuyWithFailed (s : Session) (itemID : Int) (token : String)
    (expectedStatus : Nat) (expectedMsg : String)
    (newReqErr : Option String) (doResult : Except String Response) : CaseOutcome :=
  let p := Payload.buy ⟨s.csrfToken, itemID, token⟩
  match newReqErr with
  | some e =>
    ⟨s, [p], 0, false, Except.ok (some (NewError (some e) ("POST /buy: リクエストに失敗しました")))⟩
  | none =>
    match doResult with
    | Except.error e =>
      ⟨s, [p], 0, false, Except.ok (some (NewError (some e) ("POST /buy: リクエストに失敗しました")))⟩
    | Except.ok res =>
      match checkStatusCode res expectedStatus with
      | (msg, some e) =>
        ⟨s, [p], 1, false, Except.ok (some (NewError (some e) ("POST /buy: " ++ msg)))⟩
      | (_, none) =>
        match decodeResErr res.body with
        | Except.error e =>
          ⟨s, [p], 1, true, Except.ok (some (NewError (some e) ("POST /buy: JSONデコードに失敗しました")))⟩
        | Except.ok re =>
          if re.Error ≠ expectedMsg then
            ⟨s, [p], 1, true,
              Except.ok (some (NewError none ("POST /buy: " ++ expectedMsg ++ "というエラーではありません")))⟩
          else
            ⟨s, [p], 1, true, Except.ok none⟩

/-- `(*Session).ShipWithWrongCSRFToken`: POST /ship with a freshly
forged random token, expecting 422 and a decodable error envelope. -/
def ShipWithWrongCSRFToken (s : Session) (itemID : Int) (src : RandSrc)
    (newReqErr : Option String) (doResult : Except String Response) : CaseOutcome :=
  match secureRandomStr 20 src with
  | Except.error e => ⟨s, [], 0, false, Except.error e⟩
  | Except.ok tok =>
    let p := Payload.ship ⟨tok, itemID⟩
    match newReqErr with
    | some e =>
      ⟨s, [p], 0, false, Except.ok (some (NewError (some e) ("POST /ship: リクエストに失敗しました")))⟩
    | none =>
      match doResult with
      | Except.error e =>
        ⟨s, [p], 0, false, Except.ok (some (NewError (some e) ("POST /ship: リクエストに失敗しました")))⟩
      | Except.ok res =>
        match checkStatusCode res StatusUnprocessableEntity with
        | (msg, some e) =>
          ⟨s, [p], 1, false, Except.ok (some (NewError (some e) ("POST /ship: " ++ msg)))⟩
        | (_, none) =>
          match decodeResErr res.body with
          | Except.error e =>
            ⟨s, [p], 1, true, Except.ok (some (NewError (some e) ("POST /ship: JSONデコードに失敗しました")))⟩
          | Except.ok _ =>
            ⟨s, [p], 1, true, Except.ok none⟩

/-- `(*Session).ShipWithWrongSeller`: POST /ship with a freshly forged
random token, expecting 403 and the exact message 権限がありません in the
error envelope. -/
def ShipWithWrongSeller (s : Session) (itemID : Int) (src : RandSrc)
    (newReqErr : Option String) (doResult : Except String Response) : CaseOutcome :=
  match secureRandomStr 20 src with
  | Except.error e => ⟨s, [], 0, false, Except.error e⟩
  | Except.ok tok =>
    let p := Payload.ship ⟨tok, itemID⟩
    match newReqErr with
    | some e =>
      ⟨s, [p], 0, false, Except.ok (some (NewError (some e) ("POST /ship: リクエストに失敗しました")))⟩
    | none =>
      match doResult with
      | Except.error e =>
        ⟨s, [p], 0, false, Except.ok (some (NewError (some e) ("POST /ship: リクエストに失敗しました")))⟩
      | Except.ok res =>
        match checkStatusCode res StatusForbidden with
        | (msg, some e) =>
          ⟨s, [p], 1, false, Except.ok (some (NewError (some e) ("POST /ship: " ++ msg)))⟩
        | (_, none) =>
          match decodeResErr res.body with
          | Except.error e =>
            ⟨s, [p], 1, true, Except.ok (some (NewError (some e) ("POST /ship: JSONデコードに失敗しました")))⟩
          | Except.ok re =>
            if re.Error ≠ "権限がありません" then
              ⟨s, [p], 1, true,
                Except.ok (some (NewError none ("POST /ship: 権限がないエラーが発生していません")))⟩
            else
              ⟨s, [p], 1, true, Except.ok none⟩

/-- Hex encoding yields two characters per input byte. -/
theorem hexStr_length (k : List Nat) : (hexStr k).length = 2 * k.length := by
  show ((k.map hexByte).flatten).length = 2 * k.length
  induction k with
  | nil => rfl
  | cons a t ih =>
    simp only [List.map_cons, List.flatten_cons, List.length_append, ih, List.length_cons]
    have hb : (hexByte a).length = 2 := rfl
    omega

/-- C1: every negative case asserts exactly the rejection status the
spec's table gives — wrong-password login 401; wrong-token sell, buy and
ship 422; wrong-price sell 400; failed buy the caller-supplied expected
status; wrong-seller ship 403. A case can only report success when the
response carried that status. -/
theorem C1_expected_statuses :
    (∀ (s : Session) (an pw : String) (nre : Option String) (res : Response),
      (LoginWithWrongPassword s an pw nre (Except.ok res)).result = Except.ok none →
        res.status = 401)
  ∧ (∀ (s : Session) (n : String) (pr : Int) (d : String) (cid : Int)
        (k : List Nat) (nre : Option String) (res : Response),
      (SellWithWrongCSRFToken s n pr d cid (Except.ok k) nre (Except.ok res)).result =
          Except.ok none →
        res.status = 422)
  ∧ (∀ (s : Session) (n : String) (pr : Int) (d : String) (cid : Int)
        (nre : Option String) (res : Response),
      (SellWithWrongPrice s n pr d cid nre (Except.ok res)).result = Except.ok none →
        res.status = 400)
  ∧ (∀ (s : Session) (iid : Int) (tok : String) (k : List Nat)
        (nre : Option String) (res : Response),
      (BuyWithWrongCSRFToken s iid tok (Except.ok k) nre (Except.ok res)).result =
          Except.ok none →
        res.status = 422)
  ∧ (∀ (s : Session) (iid : Int) (tok : String) (est : Nat) (emsg : String)
        (nre : Option String) (res : Response),
      (BuyWithFailed s iid tok est emsg nre (Except.ok res)).result = Except.ok none →
        res.status = est)
  ∧ (∀ (s : Session) (iid : Int) (k : List Nat) (nre : Option String) (res : Response),
      (ShipWithWrongCSRFToken s iid (Except.ok k) nre (Except.ok res)).result =
          Except.ok none →
        res.status = 422)
  ∧ (∀ (s : Session) (iid : Int) (k : List Nat) (nre : Option String) (res : Response),
      (ShipWithWrongSeller s iid (Except.ok k) nre (Except.ok res)).result = Except.ok none →
        res.status = 403) := by
  refine ⟨?_, ?_, ?_, ?_, ?_, ?_, ?_⟩
  · intro s an pw nre res h
    cases nre with
    | some e => simp [LoginWithWrongPassword] at h
    | none =>
      by_cases hst : res.status = StatusUnauthorized
      · exact hst
      · simp [LoginWithWrongPassword, checkStatusCode, hst] at h
  · intro s n pr d cid k nre res h
    cases nre with
    | some e => simp [SellWithWrongCSRFToken, secureRandomStr] at h
    | none =>
      by_cases hst : res.status = StatusUnprocessableEntity
      · exact hst
      · simp [SellWithWrongCSRFToken, secureRandomStr, checkStatusCode, hst] at h
  · intro s n pr d cid nre res h
    cases nre with
    | some e => simp [SellWithWrongPrice] at h
    | none =>
      by_cases hst : res.status = StatusBadRequest
      · exact hst
      · simp [SellWithWrongPrice, checkStatusCode, hst] at h
  · intro s iid tok k nre res h
    cases nre with
    | some e => simp [BuyWithWrongCSRFToken, secureRandomStr] at h
    | none =>
      by_cases hst : res.status = StatusUnprocessableEntity
      · exact hst
      · simp [BuyWithWrongCSRFToken, secureRandomStr, checkStatusCode, hst] at h
  · intro s iid tok est emsg nre res h
    cases nre with
    | some e => simp [BuyWithFailed] at h
    | none =>
      by_cases hst : res.status = est
      · exact hst
      · simp [BuyWithFailed, checkStatusCode, hst] at h
  · intro s iid k nre res h
    cases nre with
    | some e => simp [ShipWithWrongCSRFToken, secureRandomStr] at h
    | none =>
      by_cases hst : res.status = StatusUnprocessableEntity
      · exact hst
      · simp [ShipWithWrongCSRFToken, secureRandomStr, checkStatusCode, hst] at h
  · intro s iid k nre res h
    cases nre with
    | some e => simp [ShipWithWrongSeller, secureRandomStr] at h
    | none =>
      by_cases hst : res.status = StatusForbidden
      · exact hst
      · simp [ShipWithWrongSeller, secureRandomStr, checkStatusCode, hst] at h

/-- Concrete witness for C1: each case evaluated on a succeeding run. -/
theorem C1_expected_statuses_witness :
    (Response.mk 401 (Body.obj [])).status = 401 ∧
      (Response.mk 422 (Body.obj [])).status = 422 ∧
      (Response.mk 400 (Body.obj [("error", ItemPriceErrMsg)])).status = 400 ∧
      (Response.mk 422 (Body.obj [])).status = 422 ∧
      (Response.mk 409 (Body.obj [("error", "m")])).status = 409 ∧
      (Response.mk 422 (Body.obj [("error", "x")])).status = 422 ∧
      (Response.mk 403 (Body.obj [("error", "権限がありません")])).status = 403 :=
  ⟨C1_expected_statuses.1 ⟨"u", "t"⟩ "a" "p" none
      (Response.mk 401 (Body.obj [])) (by decide),
    C1_expected_statuses.2.1 ⟨"u", "t"⟩ "n" 1 "d" 1 [0] none
      (Response.mk 422 (Body.obj [])) (by decide),
    C1_expected_statuses.2.2.1 ⟨"u", "t"⟩ "n" 1 "d" 1 none
      (Response.mk 400 (Body.obj [("error", ItemPriceErrMsg)])) (by decide),
    C1_expected_statuses.2.2.2.1 ⟨"u", "t"⟩ 3 "ptok" [0] none
      (Response.mk 422 (Body.obj [])) (by decide),
    C1_expected_statuses.2.2.2.2.1 ⟨"u", "t"⟩ 3 "ptok" 409 "m" none
      (Response.mk 409 (Body.obj [("error", "m")])) (by decide),
    C1_expected_statuses.2.2.2.2.2.1 ⟨"u", "t"⟩ 3 [0] none
      (Response.mk 422 (Body.obj [("error", "x")])) (by decide),
    C1_expected_statuses.2.2.2.2.2.2 ⟨"u", "t"⟩ 3 [0] none
      (Response.mk 403 (Body.obj [("error", "権限がありません")])) (by decide)⟩

/-- C2: SellWithWrongPrice reports success exactly when the status is
400 and the decoded error message equals the fixed constant
`ItemPriceErrMsg` byte for byte (with `ItemMinPrice = 100` and
`ItemMaxPrice = 1000000`); any other decoded message, even under status
400, yields a failure. -/
theorem C2_sell_wrong_price_exact_message :
    (∀ (s : Session) (n : String) (pr : Int) (d : String) (cid : Int)
        (nre : Option String) (res : Response),
      ((SellWithWrongPrice s n pr d cid nre (Except.ok res)).result = Except.ok none ↔
        nre = none ∧ res.status = 400 ∧ decodeResErr res.body = Except.ok ⟨ItemPriceErrMsg⟩))
  ∧ (∀ (s : Session) (n : String) (pr : Int) (d : String) (cid : Int)
        (res : Response) (fields : List (String × String)),
      res.status = 400 → res.body = Body.obj fields →
        ((fields.lookup "error").getD "") ≠ ItemPriceErrMsg →
        (SellWithWrongPrice s n pr d cid none (Except.ok res)).result =
          Except.ok (some (NewError none
            ("POST /sell: 商品価格は100円以上、1,000,000円以下しか出品できません"))))
  ∧ ItemMinPrice = 100 ∧ ItemMaxPrice = 1000000 ∧
    ItemPriceErrMsg = "商品価格は100円以上、1,000,000円以下にしてください" := by
  refine ⟨?_, ?_, rfl, rfl, rfl⟩
  · intro s n pr d cid nre res
    cases nre with
    | some e => simp [SellWithWrongPrice]
    | none =>
      by_cases hst : res.status = StatusBadRequest
      · cases hb : res.body with
        | malformed =>
          simp [SellWithWrongPrice, checkStatusCode, hst, hb, decodeResErr, StatusBadRequest]
        | obj fields =>
          by_cases hm : ((fields.lookup "error").getD "") = ItemPriceErrMsg
          · simp [SellWithWrongPrice, checkStatusCode, hst, hb, decodeResErr, hm,
              StatusBadRequest]
          · simp [SellWithWrongPrice, checkStatusCode, hst, hb, decodeResErr, hm,
              StatusBadRequest]
      · simp only [StatusBadRequest] at hst
        simp [SellWithWrongPrice, checkStatusCode, StatusBadRequest, hst]
  · intro s n pr d cid res fields hst hb hm
    simp [SellWithWrongPrice, checkStatusCode, StatusBadRequest, hst, hb, decodeResErr, hm]

/-- Concrete witness for C2: a 400 response with the exact constant
message is accepted, one with another message is rejected. -/
theorem C2_sell_wrong_price_exact_message_witness :
    (SellWithWrongPrice ⟨"u", "t"⟩ "n" 1 "d" 1 none
        (Except.ok ⟨400, Body.obj [("error", ItemPriceErrMsg)]⟩)).result = Except.ok none ∧
      (SellWithWrongPrice ⟨"u", "t"⟩ "n" 1 "d" 1 none
          (Except.ok ⟨400, Body.obj [("error", "別のメッセージ")]⟩)).result =
        Except.ok (some (NewError none
          ("POST /sell: 商品価格は100円以上、1,000,000円以下しか出品できません"))) :=
  ⟨(C2_sell_wrong_price_exact_message.1 ⟨"u", "t"⟩ "n" 1 "d" 1 none
        ⟨400, Body.obj [("error", ItemPriceErrMsg)]⟩).mpr (by simp [decodeResErr]),
    C2_sell_wrong_price_exact_message.2.1 ⟨"u", "t"⟩ "n" 1 "d" 1
      ⟨400, Body.obj [("error", "別のメッセージ")]⟩ [("error", "別のメッセージ")]
      rfl rfl (by decide)⟩

/-- C3: ShipWithWrongSeller reports success exactly when the status is
403 and the decoded error message equals the fixed forbidden string
権限がありません; a 403 response with any other decoded message yields a
failure. -/
theorem C3_ship_wrong_seller_exact_message :
    (∀ (s : Session) (iid : Int) (k : List Nat) (nre : Option String) (res : Response),
      ((ShipWithWrongSeller s iid (Except.ok k) nre (Except.ok res)).result = Except.ok none ↔
        nre = none ∧ res.status = 403 ∧ decodeResErr res.body = Except.ok ⟨"権限がありません"⟩))
  ∧ (∀ (s : Session) (iid : Int) (k : List Nat)
        (res : Response) (fields : List (String × String)),
      res.status = 403 → res.body = Body.obj fields →
        ((fields.lookup "error").getD "") ≠ "権限がありません" →
        (ShipWithWrongSeller s iid (Except.ok k) none (Except.ok res)).result =
          Except.ok (some (NewError none ("POST /ship: 権限がないエラーが発生していません")))) := by
  constructor
  · intro s iid k nre res
    cases nre with
    | some e => simp [ShipWithWrongSeller, secureRandomStr]
    | none =>
      by_cases hst : res.status = StatusForbidden
      · cases hb : res.body with
        | malformed =>
          simp [ShipWithWrongSeller, secureRandomStr, checkStatusCode, hst, hb, decodeResErr,
            StatusForbidden]
        | obj fields =>
          by_cases hm : ((fields.lookup "error").getD "") = "権限がありません"
          · simp [ShipWithWrongSeller, secureRandomStr, checkStatusCode, hst, hb, decodeResErr,
              hm, StatusForbidden]
          · simp [ShipWithWrongSeller, secureRandomStr, checkStatusCode, hst, hb, decodeResErr,
              hm, StatusForbidden]
      · simp only [StatusForbidden] at hst
        simp [ShipWithWrongSeller, secureRandomStr, checkStatusCode, StatusForbidden, hst]
  · intro s iid k res fields hst hb hm
    simp [ShipWithWrongSeller, secureRandomStr, checkStatusCode, StatusForbidden, hst, hb,
      decodeResErr, hm]

/-- Concrete witness for C3: a 403 with the exact forbidden string is
accepted, a 403 with another message is rejected. -/
theorem C3_ship_wrong_seller_exact_message_witness :
    (ShipWithWrongSeller ⟨"u", "t"⟩ 3 (Except.ok [0]) none
        (Except.ok ⟨403, Body.obj [("error", "権限がありません")]⟩)).result = Except.ok none ∧
      (ShipWithWrongSeller ⟨"u", "t"⟩ 3 (Except.ok [0]) none
          (Except.ok ⟨403, Body.obj [("error", "別のメッセージ")]⟩)).result =
        Except.ok (some (NewError none ("POST /ship: 権限がないエラーが発生していません"))) :=
  ⟨(C3_ship_wrong_seller_exact_message.1 ⟨"u", "t"⟩ 3 [0] none
        ⟨403, Body.obj [("error", "権限がありません")]⟩).mpr (by simp [decodeResErr]),
    C3_ship_wrong_seller_exact_message.2 ⟨"u", "t"⟩ 3 [0]
      ⟨403, Body.obj [("error", "別のメッセージ")]⟩ [("error", "別のメッセージ")]
      rfl rfl (by decide)⟩

/-- C4: whenever the actual status differs from the expected one, every
case returns a failure carrying a diagnostic string, reads nothing from
the body, and its whole outcome is independent of the body — JSON
decoding is reached only after the status check succeeds. -/
theorem C4_status_mismatch_skips_decode :
    (∀ (s : Session) (an pw : String) (st : Nat) (b1 b2 : Body), st ≠ 401 →
      LoginWithWrongPassword s an pw none (Except.ok ⟨st, b1⟩) =
          LoginWithWrongPassword s an pw none (Except.ok ⟨st, b2⟩) ∧
        (LoginWithWrongPassword s an pw none (Except.ok ⟨st, b1⟩)).result =
          Except.ok (some (NewError (some "status code mismatch")
            ("POST /login: " ++ ("got response status code " ++ toString st ++
              "; expected " ++ toString 401)))) ∧
        (LoginWithWrongPassword s an pw none (Except.ok ⟨st, b1⟩)).bodyRead = false)
  ∧ (∀ (s : Session) (n : String) (pr : Int) (d : String) (cid : Int)
        (k : List Nat) (st : Nat) (b1 b2 : Body), st ≠ 422 →
      SellWithWrongCSRFToken s n pr d cid (Except.ok k) none (Except.ok ⟨st, b1⟩) =
          SellWithWrongCSRFToken s n pr d cid (Except.ok k) none (Except.ok ⟨st, b2⟩) ∧
        (SellWithWrongCSRFToken s n pr d cid (Except.ok k) none (Except.ok ⟨st, b1⟩)).result =
          Except.ok (some (NewError (some "status code mismatch")
            ("POST /sell: " ++ ("got response status code " ++ toString st ++
              "; expected " ++ toString 422)))) ∧
        (SellWithWrongCSRFToken s n pr d cid (Except.ok k) none
            (Except.ok ⟨st, b1⟩)).bodyRead = false)
  ∧ (∀ (s : Session) (n : String) (pr : Int) (d : String) (cid : Int)
        (st : Nat) (b1 b2 : Body), st ≠ 400 →
      SellWithWrongPrice s n pr d cid none (Except.ok ⟨st, b1⟩) =
          SellWithWrongPrice s n pr d cid none (Except.ok ⟨st, b2⟩) ∧
        (SellWithWrongPrice s n pr d cid none (Except.ok ⟨st, b1⟩)).result =
          Except.ok (some (NewError (some "status code mismatch")
            ("POST /sell: " ++ ("got response status code " ++ toString st ++
              "; expected " ++ toString 400)))) ∧
        (SellWithWrongPrice s n pr d cid none (Except.ok ⟨st, b1⟩)).bodyRead = false)
  ∧ (∀ (s : Session) (iid : Int) (tok : String) (k : List Nat)
        (st : Nat) (b1 b2 : Body), st ≠ 422 →
      BuyWithWrongCSRFToken s iid tok (Except.ok k) none (Except.ok ⟨st, b1⟩) =
          BuyWithWrongCSRFToken s iid tok (Except.ok k) none (Except.ok ⟨st, b2⟩) ∧
        (BuyWithWrongCSRFToken s iid tok (Except.ok k) none (Except.ok ⟨st, b1⟩)).result =
          Except.ok (some (NewError (some "status code mismatch")
            ("POST /buy: " ++ ("got response status code " ++ toString st ++
              "; expected " ++ toString 422)))) ∧
        (BuyWithWrongCSRFToken s iid tok (Except.ok k) none
            (Except.ok ⟨st, b1⟩)).bodyRead = false)
  ∧ (∀ (s : Session) (iid : Int) (tok : String) (est : Nat) (emsg : String)
        (st : Nat) (b1 b2 : Body), st ≠ est →
      BuyWithFailed s iid tok est emsg none (Except.ok ⟨st, b1⟩) =
          BuyWithFailed s iid tok est emsg none (Except.ok ⟨st, b2⟩) ∧
        (BuyWithFailed s iid tok est emsg none (Except.ok ⟨st, b1⟩)).result =
          Except.ok (some (NewError (some "status code mismatch")
            ("POST /buy: " ++ ("got response status code " ++ toString st ++
              "; expected " ++ toString est)))) ∧
        (BuyWithFailed s iid tok est emsg none (Except.ok ⟨st, b1⟩)).bodyRead = false)
  ∧ (∀ (s : Session) (iid : Int) (k : List Nat) (st : Nat) (b1 b2 : Body), st ≠ 422 →
      ShipWithWrongCSRFToken s iid (Except.ok k) none (Except.ok ⟨st, b1⟩) =
          ShipWithWrongCSRFToken s iid (Except.ok k) none (Except.ok ⟨st, b2⟩) ∧
        (ShipWithWrongCSRFToken s iid (Except.ok k) none (Except.ok ⟨st, b1⟩)).result =
          Except.ok (some (NewError (some "status code mismatch")
            ("POST /ship: " ++ ("got response status code " ++ toString st ++
              "; expected " ++ toString 422)))) ∧
        (ShipWithWrongCSRFToken s iid (Except.ok k) none
            (Except.ok ⟨st, b1⟩)).bodyRead = false)
  ∧ (∀ (s : Session) (iid : Int) (k : List Nat) (st : Nat) (b1 b2 : Body), st ≠ 403 →
      ShipWithWrongSeller s iid (Except.ok k) none (Except.ok ⟨st, b1⟩) =
          ShipWithWrongSeller s iid (Except.ok k) none (Except.ok ⟨st, b2⟩) ∧
        (ShipWithWrongSeller s iid (Except.ok k) none (Except.ok ⟨st, b1⟩)).result =
          Except.ok (some (NewError (some "status code mismatch")
            ("POST /ship: " ++ ("got response status code " ++ toString st ++
              "; expected " ++ toString 403)))) ∧
        (ShipWithWrongSeller s iid (Except.ok k) none
            (Except.ok ⟨st, b1⟩)).bodyRead = false) := by
  refine ⟨?_, ?_, ?_, ?_, ?_, ?_, ?_⟩
  · intro s an pw st b1 b2 hst
    refine ⟨?_, ?_, ?_⟩ <;>
      simp [LoginWithWrongPassword, checkStatusCode, StatusUnauthorized, hst]
  · intro s n pr d cid k st b1 b2 hst
    refine ⟨?_, ?_, ?_⟩ <;>
      simp [SellWithWrongCSRFToken, secureRandomStr, checkStatusCode,
        StatusUnprocessableEntity, hst]
  · intro s n pr d cid st b1 b2 hst
    refine ⟨?_, ?_, ?_⟩ <;>
      simp [SellWithWrongPrice, checkStatusCode, StatusBadRequest, hst]
  · intro s iid tok k st b1 b2 hst
    refine ⟨?_, ?_, ?_⟩ <;>
      simp [BuyWithWrongCSRFToken, secureRandomStr, checkStatusCode,
        StatusUnprocessableEntity, hst]
  · intro s iid tok est emsg st b1 b2 hst
    refine ⟨?_, ?_, ?_⟩ <;>
      simp [BuyWithFailed, checkStatusCode, hst]
  · intro s iid k st b1 b2 hst
    refine ⟨?_, ?_, ?_⟩ <;>
      simp [ShipWithWrongCSRFToken, secureRandomStr, checkStatusCode,
        StatusUnprocessableEntity, hst]
  · intro s iid k st b1 b2 hst
    refine ⟨?_, ?_, ?_⟩ <;>
      simp [ShipWithWrongSeller, secureRandomStr, checkStatusCode, StatusForbidden, hst]

/-- Concrete witness for C4: each case on a status-500 response never
reads the body. -/
theorem C4_status_mismatch_skips_decode_witness :
    (LoginWithWrongPassword ⟨"u", "t"⟩ "a" "p" none
        (Except.ok ⟨500, Body.obj []⟩)).bodyRead = false ∧
      (SellWithWrongCSRFToken ⟨"u", "t"⟩ "n" 1 "d" 1 (Except.ok [0]) none
          (Except.ok ⟨500, Body.obj []⟩)).bodyRead = false ∧
      (SellWithWrongPrice ⟨"u", "t"⟩ "n" 1 "d" 1 none
          (Except.ok ⟨500, Body.obj []⟩)).bodyRead = false ∧
      (BuyWithWrongCSRFToken ⟨"u", "t"⟩ 3 "ptok" (Except.ok [0]) none
          (Except.ok ⟨500, Body.obj []⟩)).bodyRead = false ∧
      (BuyWithFailed ⟨"u", "t"⟩ 3 "ptok" 409 "m" none
          (Except.ok ⟨500, Body.obj []⟩)).bodyRead = false ∧
      (ShipWithWrongCSRFToken ⟨"u", "t"⟩ 3 (Except.ok [0]) none
          (Except.ok ⟨500, Body.obj []⟩)).bodyRead = false ∧
      (ShipWithWrongSeller ⟨"u", "t"⟩ 3 (Except.ok [0]) none
          (Except.ok ⟨500, Body.obj []⟩)).bodyRead = false :=
  ⟨(C4_status_mismatch_skips_decode.1 ⟨"u", "t"⟩ "a" "p" 500 (Body.obj [])
      Body.malformed (by decide)).2.2,
    (C4_status_mismatch_skips_decode.2.1 ⟨"u", "t"⟩ "n" 1 "d" 1 [0] 500 (Body.obj [])
      Body.malformed (by decide)).2.2,
    (C4_status_mismatch_skips_decode.2.2.1 ⟨"u", "t"⟩ "n" 1 "d" 1 500 (Body.obj [])
      Body.malformed (by decide)).2.2,
    (C4_status_mismatch_skips_decode.2.2.2.1 ⟨"u", "t"⟩ 3 "ptok" [0] 500 (Body.obj [])
      Body.malformed (by decide)).2.2,
    (C4_status_mismatch_skips_decode.2.2.2.2.1 ⟨"u", "t"⟩ 3 "ptok" 409 "m" 500 (Body.obj [])
      Body.malformed (by decide)).2.2,
    (C4_status_mismatch_skips_decode.2.2.2.2.2.1 ⟨"u", "t"⟩ 3 [0] 500 (Body.obj [])
      Body.malformed (by decide)).2.2,
    (C4_status_mismatch_skips_decode.2.2.2.2.2.2 ⟨"u", "t"⟩ 3 [0] 500 (Body.obj [])
      Body.malformed (by decide)).2.2⟩

/-- Frame fact for LoginWithWrongPassword: the session is returned
untouched and exactly one payload is marshalled, on every path. -/
theorem login_frame (s : Session) (an pw : String) (nre : Option String)
    (dr : Except String Response) :
    (LoginWithWrongPassword s an pw nre dr).finalSession = s ∧
      (LoginWithWrongPassword s an pw nre dr).payloads = [Payload.login ⟨an, pw⟩] := by
  cases nre with
  | some e => exact ⟨rfl, rfl⟩
  | none =>
    cases dr with
    | error e => exact ⟨rfl, rfl⟩
    | ok res =>
      by_cases hst : res.status = StatusUnauthorized
      · cases hb : res.body with
        | malformed =>
          constructor <;> simp [LoginWithWrongPassword, checkStatusCode, hst, hb, decodeResErr]
        | obj fields =>
          constructor <;> simp [LoginWithWrongPassword, checkStatusCode, hst, hb, decodeResErr]
      · constructor <;> simp [LoginWithWrongPassword, checkStatusCode, hst]

/-- Frame fact for SellWithWrongCSRFToken when the random source
succeeds: session untouched, exactly one payload carrying the forged
hex token. -/
theorem sellToken_frame (s : Session) (n : String) (pr : Int) (d : String) (cid : Int)
    (k : List Nat) (nre : Option String) (dr : Except String Response) :
    (SellWithWrongCSRFToken s n pr d cid (Except.ok k) nre dr).finalSession = s ∧
      (SellWithWrongCSRFToken s n pr d cid (Except.ok k) nre dr).payloads =
        [Payload.sell ⟨hexStr k, n, pr, d, cid⟩] := by
  cases nre with
  | some e => exact ⟨rfl, rfl⟩
  | none =>
    cases dr with
    | error e => exact ⟨rfl, rfl⟩
    | ok res =>
      by_cases hst : res.status = StatusUnprocessableEntity
      · cases hb : res.body with
        | malformed =>
          constructor <;>
            simp [SellWithWrongCSRFToken, secureRandomStr, checkStatusCode, hst, hb,
              decodeResErr]
        | obj fields =>
          constructor <;>
            simp [SellWithWrongCSRFToken, secureRandomStr, checkStatusCode, hst, hb,
              decodeResErr]
      · constructor <;> simp [SellWithWrongCSRFToken, secureRandomStr, checkStatusCode, hst]

/-- Frame fact for SellWithWrongPrice: session untouched, exactly one
payload carrying the session's own token. -/
theorem sellPrice_frame (s : Session) (n : String) (pr : Int) (d : String) (cid : Int)
    (nre : Option String) (dr : Except String Response) :
    (SellWithWrongPrice s n pr d cid nre dr).finalSession = s ∧
      (SellWithWrongPrice s n pr d cid nre dr).payloads =
        [Payload.sell ⟨s.csrfToken, n, pr, d, cid⟩] := by
  cases nre with
  | some e => exact ⟨rfl, rfl⟩
  | none =>
    cases dr with
    | error e => exact ⟨rfl, rfl⟩
    | ok res =>
      by_cases hst : res.status = StatusBadRequest
      · cases hb : res.body with
        | malformed =>
          constructor <;> simp [SellWithWrongPrice, checkStatusCode, hst, hb, decodeResErr]
        | obj fields =>
          by_cases hm : ((fields.lookup "error").getD "") = ItemPriceErrMsg
          · constructor <;>
              simp [SellWithWrongPrice, checkStatusCode, hst, hb, decodeResErr, hm]
          · constructor <;>
              simp [SellWithWrongPrice, checkStatusCode, hst, hb, decodeResErr, hm]
      · constructor <;> simp [SellWithWrongPrice, checkStatusCode, hst]

/-- Frame fact for BuyWithWrongCSRFToken when the random source
succeeds. -/
theorem buyToken_frame (s : Session) (iid : Int) (tok : String) (k : List Nat)
    (nre : Option String) (dr : Except String Response) :
    (BuyWithWrongCSRFToken s iid tok (Except.ok k) nre dr).finalSession = s ∧
      (BuyWithWrongCSRFToken s iid tok (Except.ok k) nre dr).payloads =
        [Payload.buy ⟨hexStr k, iid, tok⟩] := by
  cases nre with
  | some e => exact ⟨rfl, rfl⟩
  | none =>
    cases dr with
    | error e => exact ⟨rfl, rfl⟩
    | ok res =>
      by_cases hst : res.status = StatusUnprocessableEntity
      · cases hb : res.body with
        | malformed =>
          constructor <;>
            simp [BuyWithWrongCSRFToken, secureRandomStr, checkStatusCode, hst, hb,
              decodeResErr]
        | obj fields =>
          constructor <;>
            simp [BuyWithWrongCSRFToken, secureRandomStr, checkStatusCode, hst, hb,
              decodeResErr]
      · constructor <;> simp [BuyWithWrongCSRFToken, secureRandomStr, checkStatusCode, hst]

/-- Frame fact for BuyWithFailed: session untouched, exactly one payload
carrying the session's own token. -/
theorem buyFailed_frame (s : Session) (iid : Int) (tok : String) (est : Nat)
    (emsg : String) (nre : Option String) (dr : Except String Response) :
    (BuyWithFailed s iid tok est emsg nre dr).finalSession = s ∧
      (BuyWithFailed s iid tok est emsg nre dr).payloads =
        [Payload.buy ⟨s.csrfToken, iid, tok⟩] := by
  cases nre with
  | some e => exact ⟨rfl, rfl⟩
  | none =>
    cases dr with
    | error e => exact ⟨rfl, rfl⟩
    | ok res =>
      by_cases hst : res.status = est
      · cases hb : res.body with
        | malformed =>
          constructor <;> simp [BuyWithFailed, checkStatusCode, hst, hb, decodeResErr]
        | obj fields =>
          by_cases hm : ((fields.lookup "error").getD "") = emsg
          · constructor <;> simp [BuyWithFailed, checkStatusCode, hst, hb, decodeResErr, hm]
          · constructor <;> simp [BuyWithFailed, checkStatusCode, hst, hb, decodeResErr, hm]
      · constructor <;> simp [BuyWithFailed, checkStatusCode, hst]

/-- Frame fact for ShipWithWrongCSRFToken when the random source
succeeds. -/
theorem shipToken_frame (s : Session) (iid : Int) (k : List Nat)
    (nre : Option String) (dr : Except String Response) :
    (ShipWithWrongCSRFToken s iid (Except.ok k) nre dr).finalSession = s ∧
      (ShipWithWrongCSRFToken s iid (Except.ok k) nre dr).payloads =
        [Payload.ship ⟨hexStr k, iid⟩] := by
  cases nre with
  | some e => exact ⟨rfl, rfl⟩
  | none =>
    cases dr with
    | error e => exact ⟨rfl, rfl⟩
    | ok res =>
      by_cases hst : res.status = StatusUnprocessableEntity
      · cases hb : res.body with
        | malformed =>
          constructor <;>
            simp [ShipWithWrongCSRFToken, secureRandomStr, checkStatusCode, hst, hb,
              decodeResErr]
        | obj fields =>
          constructor <;>
            simp [ShipWithWrongCSRFToken, secureRandomStr, checkStatusCode, hst, hb,
              decodeResErr]
      · constructor <;> simp [ShipWithWrongCSRFToken, secureRandomStr, checkStatusCode, hst]

/-- Frame fact for ShipWithWrongSeller when the random source
succeeds. -/
theorem shipSeller_frame (s : Session) (iid : Int) (k : List Nat)
    (nre : Option String) (dr : Except String Response) :
    (ShipWithWrongSeller s iid (Except.ok k) nre dr).finalSession = s ∧
      (ShipWithWrongSeller s iid (Except.ok k) nre dr).payloads =
        [Payload.ship ⟨hexStr k, iid⟩] := by
  cases nre with
  | some e => exact ⟨rfl, rfl⟩
  | none =>
    cases dr with
    | error e => exact ⟨rfl, rfl⟩
    | ok res =>
      by_cases hst : res.status = StatusForbidden
      · cases hb : res.body with
        | malformed =>
          constructor <;>
            simp [ShipWithWrongSeller, secureRandomStr, checkStatusCode, hst, hb, decodeResErr]
        | obj fields =>
          by_cases hm : ((fields.lookup "error").getD "") = "権限がありません"
          · constructor <;>
              simp [ShipWithWrongSeller, secureRandomStr, checkStatusCode, hst, hb,
                decodeResErr, hm]
          · constructor <;>
              simp [ShipWithWrongSeller, secureRandomStr, checkStatusCode, hst, hb,
                decodeResErr, hm]
      · constructor <;> simp [ShipWithWrongSeller, secureRandomStr, checkStatusCode, hst]

/-- C7: a random-source failure while forging a token aborts the whole
run — the case propagates the panic untouched, having built nothing —
and it is the only abort condition: with a working random source every
case, and each of the three cases that draw no randomness, always
returns a normal per-case result. -/
theorem C7_random_failure_aborts :
    (∀ (s : Session) (n : String) (pr : Int) (d : String) (cid : Int) (e : String)
        (nre : Option String) (dr : Except String Response),
      SellWithWrongCSRFToken s n pr d cid (Except.error e) nre dr =
        ⟨s, [], 0, false, Except.error e⟩)
  ∧ (∀ (s : Session) (iid : Int) (tok : String) (e : String)
        (nre : Option String) (dr : Except String Response),
      BuyWithWrongCSRFToken s iid tok (Except.error e) nre dr =
        ⟨s, [], 0, false, Except.error e⟩)
  ∧ (∀ (s : Session) (iid : Int) (e : String)
        (nre : Option String) (dr : Except String Response),
      ShipWithWrongCSRFToken s iid (Except.error e) nre dr =
        ⟨s, [], 0, false, Except.error e⟩)
  ∧ (∀ (s : Session) (iid : Int) (e : String)
        (nre : Option String) (dr : Except String Response),
      ShipWithWrongSeller s iid (Except.error e) nre dr =
        ⟨s, [], 0, false, Except.error e⟩)
  ∧ (∀ (s : Session) (n : String) (pr : Int) (d : String) (cid : Int) (k : List Nat)
        (nre : Option String) (dr : Except String Response),
      resultOk (SellWithWrongCSRFToken s n pr d cid (Except.ok k) nre dr).result = true)
  ∧ (∀ (s : Session) (iid : Int) (tok : String) (k : List Nat)
        (nre : Option String) (dr : Except String Response),
      resultOk (BuyWithWrongCSRFToken s iid tok (Except.ok k) nre dr).result = true)
  ∧ (∀ (s : Session) (iid : Int) (k : List Nat)
        (nre : Option String) (dr : Except String Response),
      resultOk (ShipWithWrongCSRFToken s iid (Except.ok k) nre dr).result = true)
  ∧ (∀ (s : Session) (iid : Int) (k : List Nat)
        (nre : Option String) (dr : Except String Response),
      resultOk (ShipWithWrongSeller s iid (Except.ok k) nre dr).result = true)
  ∧ (∀ (s : Session) (an pw : String) (nre : Option String) (dr : Except String Response),
      resultOk (LoginWithWrongPassword s an pw nre dr).result = true)
  ∧ (∀ (s : Session) (n : String) (pr : Int) (d : String) (cid : Int)
        (nre : Option String) (dr : Except String Response),
      resultOk (SellWithWrongPrice s n pr d cid nre dr).result = true)
  ∧ (∀ (s : Session) (iid : Int) (tok : String) (est : Nat) (emsg : String)
        (nre : Option String) (dr : Except String Response),
      resultOk (BuyWithFailed s iid tok est emsg nre dr).result = true) := by
  refine ⟨fun _ _ _ _ _ _ _ _ => rfl, fun _ _ _ _ _ _ => rfl, fun _ _ _ _ _ => rfl,
    fun _ _ _ _ _ => rfl, ?_, ?_, ?_, ?_, ?_, ?_, ?_⟩
  · intro s n pr d cid k nre dr
    cases nre with
    | some e => rfl
    | none =>
      cases dr with
      | error e => rfl
      | ok res =>
        by_cases hst : res.status = StatusUnprocessableEntity
        · cases hb : res.body with
          | malformed =>
            simp [SellWithWrongCSRFToken, secureRandomStr, checkStatusCode, hst, hb,
              decodeResErr, resultOk]
          | obj fields =>
            simp [SellWithWrongCSRFToken, secureRandomStr, checkStatusCode, hst, hb,
              decodeResErr, resultOk]
        · simp [SellWithWrongCSRFToken, secureRandomStr, checkStatusCode, hst, resultOk]
  · intro s iid tok k nre dr
    cases nre with
    | some e => rfl
    | none =>
      cases dr with
      | error e => rfl
      | ok res =>
        by_cases hst : res.status = StatusUnprocessableEntity
        · cases hb : res.body with
          | malformed =>
            simp [BuyWithWrongCSRFToken, secureRandomStr, checkStatusCode, hst, hb,
              decodeResErr, resultOk]
          | obj fields =>
            simp [BuyWithWrongCSRFToken, secureRandomStr, checkStatusCode, hst, hb,
              decodeResErr, resultOk]
        · simp [BuyWithWrongCSRFToken, secureRandomStr, checkStatusCode, hst, resultOk]
  · intro s iid k nre dr
    cases nre with
    | some e => rfl
    | none =>
      cases dr with
      | error e => rfl
      | ok res =>
        by_cases hst : res.status = StatusUnprocessableEntity
        · cases hb : res.body with
          | malformed =>
            simp [ShipWithWrongCSRFToken, secureRandomStr, checkStatusCode, hst, hb,
              decodeResErr, resultOk]
          | obj fields =>
            simp [ShipWithWrongCSRFToken, secureRandomStr, checkStatusCode, hst, hb,
              decodeResErr, resultOk]
        · simp [ShipWithWrongCSRFToken, secureRandomStr, checkStatusCode, hst, resultOk]
  · intro s iid k nre dr
    cases nre with
    | some e => rfl
    | none =>
      cases dr with
      | error e => rfl
      | ok res =>
        by_cases hst : res.status = StatusForbidden
        · cases hb : res.body with
          | malformed =>
            simp [ShipWithWrongSeller, secureRandomStr, checkStatusCode, hst, hb,
              decodeResErr, resultOk]
          | obj fields =>
            by_cases hm : ((fields.lookup "error").getD "") = "権限がありません"
            · simp [ShipWithWrongSeller, secureRandomStr, checkStatusCode, hst, hb,
                decodeResErr, hm, resultOk]
            · simp [ShipWithWrongSeller, secureRandomStr, checkStatusCode, hst, hb,
                decodeResErr, hm, resultOk]
        · simp [ShipWithWrongSeller, secureRandomStr, checkStatusCode, hst, resultOk]
  · intro s an pw nre dr
    cases nre with
    | some e => rfl
    | none =>
      cases dr with
      | error e => rfl
      | ok res =>
        by_cases hst : res.status = StatusUnauthorized
        · cases hb : res.body with
          | malformed =>
            simp [LoginWithWrongPassword, checkStatusCode, hst, hb, decodeResErr, resultOk]
          | obj fields =>
            simp [LoginWithWrongPassword, checkStatusCode, hst, hb, decodeResErr, resultOk]
        · simp [LoginWithWrongPassword, checkStatusCode, hst, resultOk]
  · intro s n pr d cid nre dr
    cases nre with
    | some e => rfl
    | none =>
      cases dr with
      | error e => rfl
      | ok res =>
        by_cases hst : res.status = StatusBadRequest
        · cases hb : res.body with
          | malformed =>
            simp [SellWithWrongPrice, checkStatusCode, hst, hb, decodeResErr, resultOk]
          | obj fields =>
            by_cases hm : ((fields.lookup "error").getD "") = ItemPriceErrMsg
            · simp [SellWithWrongPrice, checkStatusCode, hst, hb, decodeResErr, hm, resultOk]
            · simp [SellWithWrongPrice, checkStatusCode, hst, hb, decodeResErr, hm, resultOk]
        · simp [SellWithWrongPrice, checkStatusCode, hst, resultOk]
  · intro s iid tok est emsg nre dr
    cases nre with
    | some e => rfl
    | none =>
      cases dr with
      | error e => rfl
      | ok res =>
        by_cases hst : res.status = est
        · cases hb : res.body with
          | malformed =>
            simp [BuyWithFailed, checkStatusCode, hst, hb, decodeResErr, resultOk]
          | obj fields =>
            by_cases hm : ((fields.lookup "error").getD "") = emsg
            · simp [BuyWithFailed, checkStatusCode, hst, hb, decodeResErr, hm, resultOk]
            · simp [BuyWithFailed, checkStatusCode, hst, hb, decodeResErr, hm, resultOk]
        · simp [BuyWithFailed, checkStatusCode, hst, resultOk]

/-- Concrete witness for C7: a failing random source aborts the four
forging cases; every other combination returns normally. -/
theorem C7_random_failure_aborts_witness :
    SellWithWrongCSRFToken ⟨"u", "t"⟩ "n" 1 "d" 1 (Except.error "entropy") none
        (Except.ok ⟨422, Body.obj []⟩) =
      ⟨⟨"u", "t"⟩, [], 0, false, Except.error "entropy"⟩ ∧
      BuyWithWrongCSRFToken ⟨"u", "t"⟩ 3 "ptok" (Except.error "entropy") none
          (Except.ok ⟨422, Body.obj []⟩) =
        ⟨⟨"u", "t"⟩, [], 0, false, Except.error "entropy"⟩ ∧
      ShipWithWrongCSRFToken ⟨"u", "t"⟩ 3 (Except.error "entropy") none
          (Except.ok ⟨422, Body.obj []⟩) =
        ⟨⟨"u", "t"⟩, [], 0, false, Except.error "entropy"⟩ ∧
      ShipWithWrongSeller ⟨"u", "t"⟩ 3 (Except.error "entropy") none
          (Except.ok ⟨403, Body.obj []⟩) =
        ⟨⟨"u", "t"⟩, [], 0, false, Except.error "entropy"⟩ ∧
      resultOk (LoginWithWrongPassword ⟨"u", "t"⟩ "a" "p" none
          (Except.ok ⟨500, Body.malformed⟩)).result = true :=
  ⟨C7_random_failure_aborts.1 ⟨"u", "t"⟩ "n" 1 "d" 1 "entropy" none
      (Except.ok ⟨422, Body.obj []⟩),
    C7_random_failure_aborts.2.1 ⟨"u", "t"⟩ 3 "ptok" "entropy" none
      (Except.ok ⟨422, Body.obj []⟩),
    C7_random_failure_aborts.2.2.1 ⟨"u", "t"⟩ 3 "entropy" none
      (Except.ok ⟨422, Body.obj []⟩),
    C7_random_failure_aborts.2.2.2.1 ⟨"u", "t"⟩ 3 "entropy" none
      (Except.ok ⟨403, Body.obj []⟩),
    C7_random_failure_aborts.2.2.2.2.2.2.2.2.1 ⟨"u", "t"⟩ "a" "p" none
      (Except.ok ⟨500, Body.malformed⟩)⟩

/-- C9: no case mutates the session — the session observed after any of
the seven case functions is field-for-field the one passed in — and on
every path that returns a result exactly one request payload was
marshalled, with SellWithWrongPrice and BuyWithFailed reading (not
writing) s.csrfToken into that single payload. -/
theorem C9_no_session_mutation :
    (∀ (s : Session) (an pw : String) (nre : Option String) (dr : Except String Response),
      (LoginWithWrongPassword s an pw nre dr).finalSession = s ∧
        (∀ o, (LoginWithWrongPassword s an pw nre dr).result = Except.ok o →
          (LoginWithWrongPassword s an pw nre dr).payloads.length = 1))
  ∧ (∀ (s : Session) (n : String) (pr : Int) (d : String) (cid : Int) (src : RandSrc)
        (nre : Option String) (dr : Except String Response),
      (SellWithWrongCSRFToken s n pr d cid src nre dr).finalSession = s ∧
        (∀ o, (SellWithWrongCSRFToken s n pr d cid src nre dr).result = Except.ok o →
          (SellWithWrongCSRFToken s n pr d cid src nre dr).payloads.length = 1))
  ∧ (∀ (s : Session) (n : String) (pr : Int) (d : String) (cid : Int)
        (nre : Option String) (dr : Except String Response),
      (SellWithWrongPrice s n pr d cid nre dr).finalSession = s ∧
        (SellWithWrongPrice s n pr d cid nre dr).payloads =
          [Payload.sell ⟨s.csrfToken, n, pr, d, cid⟩])
  ∧ (∀ (s : Session) (iid : Int) (tok : String) (src : RandSrc)
        (nre : Option String) (dr : Except String Response),
      (BuyWithWrongCSRFToken s iid tok src nre dr).finalSession = s ∧
        (∀ o, (BuyWithWrongCSRFToken s iid tok src nre dr).result = Except.ok o →
          (BuyWithWrongCSRFToken s iid tok src nre dr).payloads.length = 1))
  ∧ (∀ (s : Session) (iid : Int) (tok : String) (est : Nat) (emsg : String)
        (nre : Option String) (dr : Except String Response),
      (BuyWithFailed s iid tok est emsg nre dr).finalSession = s ∧
        (BuyWithFailed s iid tok est emsg nre dr).payloads =
          [Payload.buy ⟨s.csrfToken, iid, tok⟩])
  ∧ (∀ (s : Session) (iid : Int) (src : RandSrc)
        (nre : Option String) (dr : Except String Response),
      (ShipWithWrongCSRFToken s iid src nre dr).finalSession = s ∧
        (∀ o, (ShipWithWrongCSRFToken s iid src nre dr).result = Except.ok o →
          (ShipWithWrongCSRFToken s iid src nre dr).payloads.length = 1))
  ∧ (∀ (s : Session) (iid : Int) (src : RandSrc)
        (nre : Option String) (dr : Except String Response),
      (ShipWithWrongSeller s iid src nre dr).finalSession = s ∧
        (∀ o, (ShipWithWrongSeller s iid src nre dr).result = Except.ok o →
          (ShipWithWrongSeller s iid src nre dr).payloads.length = 1)) := by
  refine ⟨?_, ?_, ?_, ?_, ?_, ?_, ?_⟩
  · intro s an pw nre dr
    exact ⟨(login_frame s an pw nre dr).1,
      fun o _ => by simp [(login_frame s an pw nre dr).2]⟩
  · intro s n pr d cid src nre dr
    cases src with
    | error e =>
      exact ⟨rfl, fun o ho => by simp [SellWithWrongCSRFToken, secureRandomStr] at ho⟩
    | ok k =>
      exact ⟨(sellToken_frame s n pr d cid k nre dr).1,
        fun o _ => by simp [(sellToken_frame s n pr d cid k nre dr).2]⟩
  · intro s n pr d cid nre dr
    exact sellPrice_frame s n pr d cid nre dr
  · intro s iid tok src nre dr
    cases src with
    | error e =>
      exact ⟨rfl, fun o ho => by simp [BuyWithWrongCSRFToken, secureRandomStr] at ho⟩
    | ok k =>
      exact ⟨(buyToken_frame s iid tok k nre dr).1,
        fun o _ => by simp [(buyToken_frame s iid tok k nre dr).2]⟩
  · intro s iid tok est emsg nre dr
    exact buyFailed_frame s iid tok est emsg nre dr
  · intro s iid src nre dr
    cases src with
    | error e =>
      exact ⟨rfl, fun o ho => by simp [ShipWithWrongCSRFToken, secureRandomStr] at ho⟩
    | ok k =>
      exact ⟨(shipToken_frame s iid k nre dr).1,
        fun o _ => by simp [(shipToken_frame s iid k nre dr).2]⟩
  · intro s iid src nre dr
    cases src with
    | error e =>
      exact ⟨rfl, fun o ho => by simp [ShipWithWrongSeller, secureRandomStr] at ho⟩
    | ok k =>
      exact ⟨(shipSeller_frame s iid k nre dr).1,
        fun o _ => by simp [(shipSeller_frame s iid k nre dr).2]⟩

/-- Concrete witness for C9: a run of each kind leaves the session
unchanged and marshals exactly one payload. -/
theorem C9_no_session_mutation_witness :
    (LoginWithWrongPassword ⟨"u", "t"⟩ "a" "p" none
        (Except.ok ⟨401, Body.obj []⟩)).payloads.length = 1 ∧
      (SellWithWrongCSRFToken ⟨"u", "t"⟩ "n" 1 "d" 1 (Except.ok [0]) none
          (Except.ok ⟨422, Body.obj []⟩)).payloads.length = 1 ∧
      (ShipWithWrongSeller ⟨"u", "t"⟩ 3 (Except.ok [0]) none
          (Except.ok ⟨403, Body.obj []⟩)).payloads.length = 1 :=
  ⟨(C9_no_session_mutation.1 ⟨"u", "t"⟩ "a" "p" none
        (Except.ok ⟨401, Body.obj []⟩)).2 none (by decide),
    (C9_no_session_mutation.2.1 ⟨"u", "t"⟩ "n" 1 "d" 1 (Except.ok [0]) none
        (Except.ok ⟨422, Body.obj []⟩)).2 none (by decide),
    (C9_no_session_mutation.2.2.2.2.2.2 ⟨"u", "t"⟩ 3 (Except.ok [0]) none
        (Except.ok ⟨403, Body.obj []⟩)).2
      (some (NewError none ("POST /ship: 権限がないエラーが発生していません"))) (by decide)⟩

/-- C5 (counterexample): a message-mismatch failure does not surface the
actual decoded message — two SellWithWrongPrice runs whose decoded
messages differ produce bit-for-bit the same outcome, a failure with a
fixed diagnostic and a nil underlying cause. -/
theorem C5_message_mismatch_counterexample :
    SellWithWrongPrice ⟨"u", "t"⟩ "n" 1 "d" 1 none
        (Except.ok ⟨400, Body.obj [("error", "メッセージA")]⟩) =
      SellWithWrongPrice ⟨"u", "t"⟩ "n" 1 "d" 1 none
        (Except.ok ⟨400, Body.obj [("error", "メッセージB")]⟩) ∧
      (SellWithWrongPrice ⟨"u", "t"⟩ "n" 1 "d" 1 none
          (Except.ok ⟨400, Body.obj [("error", "メッセージA")]⟩)).result =
        Except.ok (some (NewError none
          ("POST /sell: 商品価格は100円以上、1,000,000円以下しか出品できません"))) := by
  constructor <;> decide

/-- C5 (amended): on a decoded-message mismatch each of the three
exact-match cases returns a fixed per-case diagnostic — SellWithWrongPrice
and ShipWithWrongSeller fixed sentences containing neither string,
BuyWithFailed a sentence embedding only the expected message — and the
underlying cause attached is the nil decode error. -/
theorem C5_message_mismatch_fixed_diagnostics :
    (∀ (s : Session) (n : String) (pr : Int) (d : String) (cid : Int)
        (res : Response) (fields : List (String × String)),
      res.status = 400 → res.body = Body.obj fields →
        ((fields.lookup "error").getD "") ≠ ItemPriceErrMsg →
        (SellWithWrongPrice s n pr d cid none (Except.ok res)).result =
          Except.ok (some (NewError none
            ("POST /sell: 商品価格は100円以上、1,000,000円以下しか出品できません"))))
  ∧ (∀ (s : Session) (iid : Int) (tok : String) (est : Nat) (emsg : String)
        (res : Response) (fields : List (String × String)),
      res.status = est → res.body = Body.obj fields →
        ((fields.lookup "error").getD "") ≠ emsg →
        (BuyWithFailed s iid tok est emsg none (Except.ok res)).result =
          Except.ok (some (NewError none
            ("POST /buy: " ++ emsg ++ "というエラーではありません"))))
  ∧ (∀ (s : Session) (iid : Int) (k : List Nat)
        (res : Response) (fields : List (String × String)),
      res.status = 403 → res.body = Body.obj fields →
        ((fields.lookup "error").getD "") ≠ "権限がありません" →
        (ShipWithWrongSeller s iid (Except.ok k) none (Except.ok res)).result =
          Except.ok (some (NewError none ("POST /ship: 権限がないエラーが発生していません")))) := by
  refine ⟨?_, ?_, ?_⟩
  · intro s n pr d cid res fields hst hb hm
    simp [SellWithWrongPrice, checkStatusCode, StatusBadRequest, hst, hb, decodeResErr, hm]
  · intro s iid tok est emsg res fields hst hb hm
    simp [BuyWithFailed, checkStatusCode, hst, hb, decodeResErr, hm]
  · intro s iid k res fields hst hb hm
    simp [ShipWithWrongSeller, secureRandomStr, checkStatusCode, StatusForbidden, hst, hb,
      decodeResErr, hm]

/-- Concrete witness for the amended C5: a BuyWithFailed mismatch run
yields exactly the fixed expected-message diagnostic with nil cause. -/
theorem C5_message_mismatch_fixed_diagnostics_witness :
    (BuyWithFailed ⟨"u", "t"⟩ 3 "ptok" 409 "期待メッセージ" none
        (Except.ok ⟨409, Body.obj [("error", "実際メッセージ")]⟩)).result =
      Except.ok (some (NewError none ("POST /buy: 期待メッセージというエラーではありません"))) :=
  C5_message_mismatch_fixed_diagnostics.2.1 ⟨"u", "t"⟩ 3 "ptok" 409 "期待メッセージ"
    ⟨409, Body.obj [("error", "実際メッセージ")]⟩ [("error", "実際メッセージ")]
    rfl rfl (by decide)

/-- C6 (counterexample): the forged token is not guaranteed to differ
from the session's valid token — when the random bytes happen to be the
preimage of the session token, the marshalled csrfToken equals it. -/
theorem C6_forged_token_counterexample :
    sentCSRFToken
        (SellWithWrongCSRFToken
          ⟨"u", "0000000000000000000000000000000000000000"⟩ "n" 1 "d" 1
          (Except.ok (List.replicate 20 0)) none (Except.ok ⟨422, Body.obj []⟩)) =
      some "0000000000000000000000000000000000000000" ∧
      (Session.mk "u" "0000000000000000000000000000000000000000").csrfToken =
        "0000000000000000000000000000000000000000" := by
  constructor <;> decide

/-- C6 (amended): each forging case marshals exactly the hex encoding of
the drawn random bytes as csrfToken, independent of the session; the
forged token is guaranteed to differ from s.csrfToken whenever the
session token's length is not twice the drawn byte count (with 20 bytes,
whenever it is not 40 characters), but a collision outcome exists. -/
theorem C6_forged_token_independent :
    (∀ (s : Session) (n : String) (pr : Int) (d : String) (cid : Int) (k : List Nat)
        (nre : Option String) (dr : Except String Response),
      sentCSRFToken (SellWithWrongCSRFToken s n pr d cid (Except.ok k) nre dr) =
          some (hexStr k) ∧
        (s.csrfToken.length ≠ 2 * k.length → hexStr k ≠ s.csrfToken))
  ∧ (∀ (s : Session) (iid : Int) (tok : String) (k : List Nat)
        (nre : Option String) (dr : Except String Response),
      sentCSRFToken (BuyWithWrongCSRFToken s iid tok (Except.ok k) nre dr) =
          some (hexStr k) ∧
        (s.csrfToken.length ≠ 2 * k.length → hexStr k ≠ s.csrfToken))
  ∧ (∀ (s : Session) (iid : Int) (k : List Nat)
        (nre : Option String) (dr : Except String Response),
      sentCSRFToken (ShipWithWrongCSRFToken s iid (Except.ok k) nre dr) =
          some (hexStr k) ∧
        (s.csrfToken.length ≠ 2 * k.length → hexStr k ≠ s.csrfToken))
  ∧ (∀ (s : Session) (iid : Int) (k : List Nat)
        (nre : Option String) (dr : Except String Response),
      sentCSRFToken (ShipWithWrongSeller s iid (Except.ok k) nre dr) =
          some (hexStr k) ∧
        (s.csrfToken.length ≠ 2 * k.length → hexStr k ≠ s.csrfToken)) := by
  refine ⟨?_, ?_, ?_, ?_⟩
  · intro s n pr d cid k nre dr
    refine ⟨by simp [sentCSRFToken, (sellToken_frame s n pr d cid k nre dr).2], ?_⟩
    intro hlen heq
    exact hlen (heq ▸ hexStr_length k)
  · intro s iid tok k nre dr
    refine ⟨by simp [sentCSRFToken, (buyToken_frame s iid tok k nre dr).2], ?_⟩
    intro hlen heq
    exact hlen (heq ▸ hexStr_length k)
  · intro s iid k nre dr
    refine ⟨by simp [sentCSRFToken, (shipToken_frame s iid k nre dr).2], ?_⟩
    intro hlen heq
    exact hlen (heq ▸ hexStr_length k)
  · intro s iid k nre dr
    refine ⟨by simp [sentCSRFToken, (shipSeller_frame s iid k nre dr).2], ?_⟩
    intro hlen heq
    exact hlen (heq ▸ hexStr_length k)

/-- Concrete witness for the amended C6: a session whose valid token is
shorter than 40 characters can never collide with a 20-byte forged
token. -/
theorem C6_forged_token_independent_witness :
    sentCSRFToken
        (SellWithWrongCSRFToken ⟨"u", "shorttoken"⟩ "n" 1 "d" 1
          (Except.ok (List.replicate 20 7)) none (Except.ok ⟨422, Body.obj []⟩)) =
      some (hexStr (List.replicate 20 7)) ∧
      hexStr (List.replicate 20 7) ≠ ("shorttoken" : String) :=
  ⟨(C6_forged_token_independent.1 ⟨"u", "shorttoken"⟩ "n" 1 "d" 1
        (List.replicate 20 7) none (Except.ok ⟨422, Body.obj []⟩)).1,
    (C6_forged_token_independent.1 ⟨"u", "shorttoken"⟩ "n" 1 "d" 1
        (List.replicate 20 7) none (Except.ok ⟨422, Body.obj []⟩)).2 (by decide)⟩

/-- C8 (counterexample): on a status mismatch the body is closed (once,
by the deferred close) but never read, so it is not fully consumed on
that early-return path. -/
theorem C8_full_consumption_counterexample :
    (LoginWithWrongPassword ⟨"u", "t"⟩ "a" "p" none
        (Except.ok ⟨500, Body.obj [("error", "x")]⟩)).bodyCloses = 1 ∧
      (LoginWithWrongPassword ⟨"u", "t"⟩ "a" "p" none
          (Except.ok ⟨500, Body.obj [("error", "x")]⟩)).bodyRead = false := by
  constructor <;> decide

/-- C8 (amended): on every path where the transport returned a response
the body is closed exactly once, regardless of outcome; it is read only
on the paths that reach JSON decoding, i.e. exactly when the status
matched the expected one. -/
theorem C8_body_closed_once :
    (∀ (s : Session) (an pw : String) (res : Response),
      (LoginWithWrongPassword s an pw none (Except.ok res)).bodyCloses = 1 ∧
        ((LoginWithWrongPassword s an pw none (Except.ok res)).bodyRead = true ↔
          res.status = 401))
  ∧ (∀ (s : Session) (n : String) (pr : Int) (d : String) (cid : Int)
        (k : List Nat) (res : Response),
      (SellWithWrongCSRFToken s n pr d cid (Except.ok k) none
          (Except.ok res)).bodyCloses = 1 ∧
        ((SellWithWrongCSRFToken s n pr d cid (Except.ok k) none
            (Except.ok res)).bodyRead = true ↔ res.status = 422))
  ∧ (∀ (s : Session) (n : String) (pr : Int) (d : String) (cid : Int) (res : Response),
      (SellWithWrongPrice s n pr d cid none (Except.ok res)).bodyCloses = 1 ∧
        ((SellWithWrongPrice s n pr d cid none (Except.ok res)).bodyRead = true ↔
          res.status = 400))
  ∧ (∀ (s : Session) (iid : Int) (tok : String) (k : List Nat) (res : Response),
      (BuyWithWrongCSRFToken s iid tok (Except.ok k) none (Except.ok res)).bodyCloses = 1 ∧
        ((BuyWithWrongCSRFToken s iid tok (Except.ok k) none
            (Except.ok res)).bodyRead = true ↔ res.status = 422))
  ∧ (∀ (s : Session) (iid : Int) (tok : String) (est : Nat) (emsg : String)
        (res : Response),
      (BuyWithFailed s iid tok est emsg none (Except.ok res)).bodyCloses = 1 ∧
        ((BuyWithFailed s iid tok est emsg none (Except.ok res)).bodyRead = true ↔
          res.status = est))
  ∧ (∀ (s : Session) (iid : Int) (k : List Nat) (res : Response),
      (ShipWithWrongCSRFToken s iid (Except.ok k) none (Except.ok res)).bodyCloses = 1 ∧
        ((ShipWithWrongCSRFToken s iid (Except.ok k) none
            (Except.ok res)).bodyRead = true ↔ res.status = 422))
  ∧ (∀ (s : Session) (iid : Int) (k : List Nat) (res : Response),
      (ShipWithWrongSeller s iid (Except.ok k) none (Except.ok res)).bodyCloses = 1 ∧
        ((ShipWithWrongSeller s iid (Except.ok k) none
            (Except.ok res)).bodyRead = true ↔ res.status = 403)) := by
  refine ⟨?_, ?_, ?_, ?_, ?_, ?_, ?_⟩
  · intro s an pw res
    by_cases hst : res.status = 401
    · cases hb : res.body with
      | malformed =>
        constructor <;>
          simp [LoginWithWrongPassword, checkStatusCode, StatusUnauthorized, hst, hb,
            decodeResErr]
      | obj fields =>
        constructor <;>
          simp [LoginWithWrongPassword, checkStatusCode, StatusUnauthorized, hst, hb,
            decodeResErr]
    · constructor <;>
        simp [LoginWithWrongPassword, checkStatusCode, StatusUnauthorized, hst]
  · intro s n pr d cid k res
    by_cases hst : res.status = 422
    · cases hb : res.body with
      | malformed =>
        constructor <;>
          simp [SellWithWrongCSRFToken, secureRandomStr, checkStatusCode,
            StatusUnprocessableEntity, hst, hb, decodeResErr]
      | obj fields =>
        constructor <;>
          simp [SellWithWrongCSRFToken, secureRandomStr, checkStatusCode,
            StatusUnprocessableEntity, hst, hb, decodeResErr]
    · constructor <;>
        simp [SellWithWrongCSRFToken, secureRandomStr, checkStatusCode,
          StatusUnprocessableEntity, hst]
  · intro s n pr d cid res
    by_cases hst : res.status = 400
    · cases hb : res.body with
      | malformed =>
        constructor <;>
          simp [SellWithWrongPrice, checkStatusCode, StatusBadRequest, hst, hb, decodeResErr]
      | obj fields =>
        by_cases hm : ((fields.lookup "error").getD "") = ItemPriceErrMsg
        · constructor <;>
            simp [SellWithWrongPrice, checkStatusCode, StatusBadRequest, hst, hb,
              decodeResErr, hm]
        · constructor <;>
            simp [SellWithWrongPrice, checkStatusCode, StatusBadRequest, hst, hb,
              decodeResErr, hm]
    · constructor <;> simp [SellWithWrongPrice, checkStatusCode, StatusBadRequest, hst]
  · intro s iid tok k res
    by_cases hst : res.status = 422
    · cases hb : res.body with
      | malformed =>
        constructor <;>
          simp [BuyWithWrongCSRFToken, secureRandomStr, checkStatusCode,
            StatusUnprocessableEntity, hst, hb, decodeResErr]
      | obj fields =>
        constructor <;>
          simp [BuyWithWrongCSRFToken, secureRandomStr, checkStatusCode,
            StatusUnprocessableEntity, hst, hb, decodeResErr]
    · constructor <;>
        simp [BuyWithWrongCSRFToken, secureRandomStr, checkStatusCode,
          StatusUnprocessableEntity, hst]
  · intro s iid tok est emsg res
    by_cases hst : res.status = est
    · cases hb : res.body with
      | malformed =>
        constructor <;> simp [BuyWithFailed, checkStatusCode, hst, hb, decodeResErr]
      | obj fields =>
        by_cases hm : ((fields.lookup "error").getD "") = emsg
        · constructor <;> simp [BuyWithFailed, checkStatusCode, hst, hb, decodeResErr, hm]
        · constructor <;> simp [BuyWithFailed, checkStatusCode, hst, hb, decodeResErr, hm]
    · constructor <;> simp [BuyWithFailed, checkStatusCode, hst]
  · intro s iid k res
    by_cases hst : res.status = 422
    · cases hb : res.body with
      | malformed =>
        constructor <;>
          simp [ShipWithWrongCSRFToken, secureRandomStr, checkStatusCode,
            StatusUnprocessableEntity, hst, hb, decodeResErr]
      | obj fields =>
        constructor <;>
          simp [ShipWithWrongCSRFToken, secureRandomStr, checkStatusCode,
            StatusUnprocessableEntity, hst, hb, decodeResErr]
    · constructor <;>
        simp [ShipWithWrongCSRFToken, secureRandomStr, checkStatusCode,
          StatusUnprocessableEntity, hst]
  · intro s iid k res
    by_cases hst : res.status = 403
    · cases hb : res.body with
      | malformed =>
        constructor <;>
          simp [ShipWithWrongSeller, secureRandomStr, checkStatusCode, StatusForbidden,
            hst, hb, decodeResErr]
      | obj fields =>
        by_cases hm : ((fields.lookup "error").getD "") = "権限がありません"
        · constructor <;>
            simp [ShipWithWrongSeller, secureRandomStr, checkStatusCode, StatusForbidden,
              hst, hb, decodeResErr, hm]
        · constructor <;>
            simp [ShipWithWrongSeller, secureRandomStr, checkStatusCode, StatusForbidden,
              hst, hb, decodeResErr, hm]
    · constructor <;>
        simp [ShipWithWrongSeller, secureRandomStr, checkStatusCode, StatusForbidden, hst]

/-- Concrete witness for the amended C8: a matched-status run closes the
body once and reads it; the iff is discharged at status 401. -/
theorem C8_body_closed_once_witness :
    (LoginWithWrongPassword ⟨"u", "t"⟩ "a" "p" none
        (Except.ok ⟨401, Body.obj []⟩)).bodyCloses = 1 ∧
      (LoginWithWrongPassword ⟨"u", "t"⟩ "a" "p" none
          (Except.ok ⟨401, Body.obj []⟩)).bodyRead = true :=
  ⟨(C8_body_closed_once.1 ⟨"u", "t"⟩ "a" "p" ⟨401, Body.obj []⟩).1,
    (C8_body_closed_once.1 ⟨"u", "t"⟩ "a" "p" ⟨401, Body.obj []⟩).2.mpr rfl⟩

/-- C10: a JSON object body without an error field decodes with the
empty message; given the expected status the four envelope-only cases
succeed, the two fixed-message cases fail with their fixed diagnostics,
and BuyWithFailed succeeds exactly when its expectedMsg is empty. -/
theorem C10_missing_error_field :
    ∀ (fields : List (String × String)), fields.lookup "error" = none →
      (∀ (s : Session) (an pw : String),
        (LoginWithWrongPassword s an pw none
            (Except.ok ⟨401, Body.obj fields⟩)).result = Except.ok none)
      ∧ (∀ (s : Session) (n : String) (pr : Int) (d : String) (cid : Int) (k : List Nat),
        (SellWithWrongCSRFToken s n pr d cid (Except.ok k) none
            (Except.ok ⟨422, Body.obj fields⟩)).result = Except.ok none)
      ∧ (∀ (s : Session) (iid : Int) (tok : String) (k : List Nat),
        (BuyWithWrongCSRFToken s iid tok (Except.ok k) none
            (Except.ok ⟨422, Body.obj fields⟩)).result = Except.ok none)
      ∧ (∀ (s : Session) (iid : Int) (k : List Nat),
        (ShipWithWrongCSRFToken s iid (Except.ok k) none
            (Except.ok ⟨422, Body.obj fields⟩)).result = Except.ok none)
      ∧ (∀ (s : Session) (n : String) (pr : Int) (d : String) (cid : Int),
        (SellWithWrongPrice s n pr d cid none
            (Except.ok ⟨400, Body.obj fields⟩)).result =
          Except.ok (some (NewError none
            ("POST /sell: 商品価格は100円以上、1,000,000円以下しか出品できません"))))
      ∧ (∀ (s : Session) (iid : Int) (k : List Nat),
        (ShipWithWrongSeller s iid (Except.ok k) none
            (Except.ok ⟨403, Body.obj fields⟩)).result =
          Except.ok (some (NewError none ("POST /ship: 権限がないエラーが発生していません"))))
      ∧ (∀ (s : Session) (iid : Int) (tok : String) (est : Nat) (emsg : String),
        ((BuyWithFailed s iid tok est emsg none
            (Except.ok ⟨est, Body.obj fields⟩)).result = Except.ok none ↔ emsg = "")) := by
  intro fields hf
  refine ⟨?_, ?_, ?_, ?_, ?_, ?_, ?_⟩
  · intro s an pw
    simp [LoginWithWrongPassword, checkStatusCode, StatusUnauthorized, decodeResErr, hf]
  · intro s n pr d cid k
    simp [SellWithWrongCSRFToken, secureRandomStr, checkStatusCode,
      StatusUnprocessableEntity, decodeResErr, hf]
  · intro s iid tok k
    simp [BuyWithWrongCSRFToken, secureRandomStr, checkStatusCode,
      StatusUnprocessableEntity, decodeResErr, hf]
  · intro s iid k
    simp [ShipWithWrongCSRFToken, secureRandomStr, checkStatusCode,
      StatusUnprocessableEntity, decodeResErr, hf]
  · intro s n pr d cid
    simp [SellWithWrongPrice, checkStatusCode, StatusBadRequest, decodeResErr, hf,
      ItemPriceErrMsg]
  · intro s iid k
    simp [ShipWithWrongSeller, secureRandomStr, checkStatusCode, StatusForbidden,
      decodeResErr, hf]
  · intro s iid tok est emsg
    by_cases hm : emsg = ""
    · simp [BuyWithFailed, checkStatusCode, decodeResErr, hf, hm]
    · simp [BuyWithFailed, checkStatusCode, decodeResErr, hf, hm, Ne.symm hm]

/-- Concrete witness for C10: the empty JSON object, with the expected
statuses. -/
theorem C10_missing_error_field_witness :
    (LoginWithWrongPassword ⟨"u", "t"⟩ "a" "p" none
        (Except.ok ⟨401, Body.obj []⟩)).result = Except.ok none ∧
      (SellWithWrongPrice ⟨"u", "t"⟩ "n" 1 "d" 1 none
          (Except.ok ⟨400, Body.obj []⟩)).result =
        Except.ok (some (NewError none
          ("POST /sell: 商品価格は100円以上、1,000,000円以下しか出品できません"))) ∧
      (BuyWithFailed ⟨"u", "t"⟩ 3 "ptok" 409 "" none
          (Except.ok ⟨409, Body.obj []⟩)).result = Except.ok none :=
  ⟨(C10_missing_error_field [] rfl).1 ⟨"u", "t"⟩ "a" "p",
    (C10_missing_error_field [] rfl).2.2.2.2.1 ⟨"u", "t"⟩ "n" 1 "d" 1,
    ((C10_missing_error_field [] rfl).2.2.2.2.2.2 ⟨"u", "t"⟩ 3 "ptok" 409 "").mpr rfl⟩

end WrongApp
